import Mathlib

/-
Verification of the terraform-provider-zendesk core: a shallow embedding of
`internal/provider/client.go` (the API Client), the two resource adapters
(`oauth_client_resource.go`, `oauth_token_resource.go`) and the provider
`Configure` function, together with theorems checking the specification's
claims against those definitions.

Modelling conventions:
  * HTTP transport is abstracted: every API Client operation is split into a
    pure request builder (where a claim needs it) and a pure function of the
    received `HttpResponse` (status, raw body text, parsed JSON), mirroring
    the Go code after `c.http.Do(req)` returns.
  * Go `int64` is modelled as `Int`; `strconv.ParseInt(s, 10, 64)` is
    modelled including its 64-bit range check.
  * `types.String` of the plugin framework is modelled by its `ValueString`
    image (a plain `String`) in the resource models — every use in the
    source goes through `ValueString`/`StringValue` — while the provider
    configuration model keeps the null/unknown/value distinction, which the
    provider `Configure` code inspects via `IsNull`/`IsUnknown`.
  * Each adapter operation additionally records the list of API Client
    method invocations it performs (`ApiCall`), including the `Option Client`
    receiver it goes through: `none` models a method call through a nil
    `*Client` pointer (the code has no nil guard).
-/

namespace Zendesk

/-- JSON values, modelling the bodies built and decoded by
`internal/provider/client.go` via Go's `encoding/json`. Object fields keep
their serialization order. -/
inductive Json where
  | str (s : String)
  | num (n : Int)
  | arr (elems : List Json)
  | obj (fields : List (String × Json))

/-- Field lookup in a decoded JSON object. Go's decoder processes keys in
text order and a later duplicate overwrites an earlier one, so the last
occurrence wins. -/
def jsonLookup (fields : List (String × Json)) (key : String) : Option Json :=
  fields.reverse.lookup key

/-- The two failure modes of Go's `strconv.ParseInt`. -/
inductive ParseError where
  | invalidNum
  | outOfRange
deriving DecidableEq

/-- The `error` text `strconv.ParseInt` produces, as rendered by `%v`. -/
def parseIntErrorMessage (s : String) (e : ParseError) : String :=
  "strconv.ParseInt: parsing \"" ++ s ++ "\": " ++
    match e with
    | .invalidNum => "invalid syntax"
    | .outOfRange => "value out of range"

/-- Decimal value of a list of ASCII digits. -/
def digitsToNat (ds : List Char) : Nat :=
  ds.foldl (fun acc c => acc * 10 + (c.toNat - 48)) 0

/-- Model of Go `strconv.ParseInt(s, 10, 64)`: an optional sign followed by
one or more ASCII decimal digits, with the result required to fit in a
signed 64-bit integer. -/
def parseInt64 (s : String) : Except ParseError Int :=
  let cs := s.data
  let signed : Int × List Char :=
    match cs with
    | '+' :: rest => (1, rest)
    | '-' :: rest => (-1, rest)
    | _ => (1, cs)
  if signed.2.isEmpty then .error .invalidNum
  else if signed.2.all (fun c => c.isDigit) then
    let v : Int := signed.1 * (digitsToNat signed.2 : Int)
    if v < -(2 ^ 63) ∨ 2 ^ 63 - 1 < v then .error .outOfRange else .ok v
  else .error .invalidNum

/-- Model of Go `strconv.FormatInt(i, 10)`: decimal representation with a
leading minus sign for negative values, as `Int.toString` produces. -/
def formatInt (i : Int) : String := toString i

/-- The API Client of `client.go`: the three credentials. The embedded
`http.Client` transport handle is abstracted away. -/
structure Client where
  subdomain : String
  email : String
  apiToken : String
deriving DecidableEq

/-- Model of `NewClient` in `client.go`. -/
def NewClient (subdomain email apiToken : String) : Client :=
  ⟨subdomain, email, apiToken⟩

/-- The `OAuthClient` record of `client.go`, JSON tags
`id`, `name`, `identifier`, `kind`, `description,omitempty`. -/
structure OAuthClient where
  id : Int
  name : String
  identifier : String
  kind : String
  description : String
deriving DecidableEq

/-- The Go zero value of `OAuthClient`. -/
def OAuthClient.zero : OAuthClient := ⟨0, "", "", "", ""⟩

/-- The `OAuthToken` record of `client.go`, JSON tags `id`, `client_id`,
`user_id`, `scopes`, `full_token,omitempty`, `expires_at,omitempty`. -/
structure OAuthToken where
  id : Int
  clientId : Int
  userId : Int
  scopes : List String
  fullToken : String
  expiresAt : String
deriving DecidableEq

/-- The Go zero value of `OAuthToken`. -/
def OAuthToken.zero : OAuthToken := ⟨0, 0, 0, [], "", ""⟩

/-- Decoding a JSON field into a Go `string` struct field: an absent field
leaves the zero value `""`; a non-string value is a decode error. -/
def decodeStringField : Option Json → Except String String
  | none => .ok ""
  | some (.str s) => .ok s
  | some _ => .error "json: cannot unmarshal value into field of type string"

/-- Decoding a JSON field into a Go `int64` struct field: an absent field
leaves the zero value `0`; a non-number value is a decode error. -/
def decodeIntField : Option Json → Except String Int
  | none => .ok 0
  | some (.num n) => .ok n
  | some _ => .error "json: cannot unmarshal value into field of type int64"

/-- Decoding one element of a JSON string array. -/
def decodeScopeElem : Json → Except String String
  | .str s => .ok s
  | _ => .error "json: cannot unmarshal value into field of type string"

/-- Decoding a JSON field into a Go `[]string` struct field: an absent field
leaves the zero value (nil slice, modelled `[]`). -/
def decodeStringListField : Option Json → Except String (List String)
  | none => .ok []
  | some (.arr xs) => xs.mapM decodeScopeElem
  | some _ => .error "json: cannot unmarshal value into field of type []string"

/-- Decoding a JSON value into the `OAuthClient` struct, per its tags. -/
def decodeOAuthClient : Json → Except String OAuthClient
  | .obj fs => do
    let id ← decodeIntField (jsonLookup fs "id")
    let name ← decodeStringField (jsonLookup fs "name")
    let identifier ← decodeStringField (jsonLookup fs "identifier")
    let kind ← decodeStringField (jsonLookup fs "kind")
    let description ← decodeStringField (jsonLookup fs "description")
    return { id := id, name := name, identifier := identifier, kind := kind,
             description := description }
  | _ => .error "json: cannot unmarshal value into OAuthClient"

/-- Decoding a JSON value into `oauthClientWrapper` and projecting its
`Client` field, as the `var result oauthClientWrapper; Decode(&result);
return &result.Client` sequence does: an absent `client` key yields the
zero struct (no error). -/
def decodeOAuthClientWrapper : Json → Except String OAuthClient
  | .obj fs =>
    match jsonLookup fs "client" with
    | none => .ok OAuthClient.zero
    | some jc => decodeOAuthClient jc
  | _ => .error "json: cannot unmarshal value into oauthClientWrapper"

/-- Decoding a JSON value into the `OAuthToken` struct, per its tags. -/
def decodeOAuthToken : Json → Except String OAuthToken
  | .obj fs => do
    let id ← decodeIntField (jsonLookup fs "id")
    let clientId ← decodeIntField (jsonLookup fs "client_id")
    let userId ← decodeIntField (jsonLookup fs "user_id")
    let scopes ← decodeStringListField (jsonLookup fs "scopes")
    let fullToken ← decodeStringField (jsonLookup fs "full_token")
    let expiresAt ← decodeStringField (jsonLookup fs "expires_at")
    return { id := id, clientId := clientId, userId := userId,
             scopes := scopes, fullToken := fullToken, expiresAt := expiresAt }
  | _ => .error "json: cannot unmarshal value into OAuthToken"

/-- Decoding a JSON value into `oauthTokenWrapper` and projecting its
`Token` field. -/
def decodeOAuthTokenWrapper : Json → Except String OAuthToken
  | .obj fs =>
    match jsonLookup fs "token" with
    | none => .ok OAuthToken.zero
    | some jt => decodeOAuthToken jt
  | _ => .error "json: cannot unmarshal value into oauthTokenWrapper"

/-- An HTTP response as the API Client sees it: status code, raw body text,
and the JSON parse of the body (`none` when the body is not well-formed
JSON). The `body` field is what `io.ReadAll(resp.Body)` yields on the error
paths; `json` is what `json.NewDecoder(resp.Body)` consumes on the success
paths. -/
structure HttpResponse where
  status : Nat
  body : String
  json : Option Json

/-- Serialization of an `OAuthClient` by `encoding/json` per the struct
tags: `id` is always emitted (no `omitempty`), the three required strings
are always emitted, and `description` is omitted exactly when empty. Field
order is struct declaration order. -/
def marshalOAuthClient (c : OAuthClient) : Json :=
  Json.obj
    ([("id", Json.num c.id), ("name", Json.str c.name),
      ("identifier", Json.str c.identifier), ("kind", Json.str c.kind)] ++
     (if c.description = "" then [] else [("description", Json.str c.description)]))

/-- An outgoing HTTP request as built by the API Client. -/
structure HttpRequest where
  method : String
  url : String
  basicAuthUser : String
  basicAuthPass : String
  contentType : Option String
  body : Option Json

/-- The request built by `Client.CreateOAuthClient`: a POST to the clients
endpoint whose JSON body wraps the payload `OAuthClient` (zero `id`, the
four caller-supplied fields) under the `client` envelope key, with basic
auth `{email}/token` : apiToken and JSON content type. -/
def createOAuthClientRequest (c : Client) (name identifier kind description : String) :
    HttpRequest :=
  { method := "POST"
  , url := "https://" ++ c.subdomain ++ ".zendesk.com/api/v2/oauth/clients.json"
  , basicAuthUser := c.email ++ "/token"
  , basicAuthPass := c.apiToken
  , contentType := some "application/json"
  , body := some (Json.obj [("client",
      marshalOAuthClient
        { id := 0, name := name, identifier := identifier, kind := kind,
          description := description })]) }

/-- Response handling of `Client.CreateOAuthClient`: any status other than
201 is an error carrying the raw body; on 201 the body is decoded. -/
def createOAuthClientResult (resp : HttpResponse) : Except String OAuthClient :=
  if resp.status ≠ 201 then
    .error ("failed to create OAuth client: " ++ resp.body)
  else
    match resp.json with
    | none => .error "json: invalid response body"
    | some j => decodeOAuthClientWrapper j

/-- Response handling of `Client.ReadOAuthClient`: 404 is the distinct
not-found outcome `ok none`; any other non-200 status is an error carrying
the raw body; 200 decodes the envelope. -/
def readOAuthClientResult (resp : HttpResponse) : Except String (Option OAuthClient) :=
  if resp.status = 404 then .ok none
  else if resp.status ≠ 200 then
    .error ("failed to read OAuth client: " ++ resp.body)
  else
    match resp.json with
    | none => .error "json: invalid response body"
    | some j => (decodeOAuthClientWrapper j).map some

/-- Response handling of `Client.DeleteOAuthClient`: any status other than
204 is an error carrying the raw body. -/
def deleteOAuthClientResult (resp : HttpResponse) : Except String Unit :=
  if resp.status ≠ 204 then
    .error ("failed to delete OAuth client: " ++ resp.body)
  else .ok ()

/-- Response handling of `Client.CreateOAuthToken`. -/
def createOAuthTokenResult (resp : HttpResponse) : Except String OAuthToken :=
  if resp.status ≠ 201 then
    .error ("failed to create OAuth token: " ++ resp.body)
  else
    match resp.json with
    | none => .error "json: invalid response body"
    | some j => decodeOAuthTokenWrapper j

/-- Response handling of `Client.ReadOAuthToken`. -/
def readOAuthTokenResult (resp : HttpResponse) : Except String (Option OAuthToken) :=
  if resp.status = 404 then .ok none
  else if resp.status ≠ 200 then
    .error ("failed to read OAuth token: " ++ resp.body)
  else
    match resp.json with
    | none => .error "json: invalid response body"
    | some j => (decodeOAuthTokenWrapper j).map some

/-- Response handling of `Client.DeleteOAuthToken`. -/
def deleteOAuthTokenResult (resp : HttpResponse) : Except String Unit :=
  if resp.status ≠ 204 then
    .error ("failed to delete OAuth token: " ++ resp.body)
  else .ok ()

/-- A user-facing diagnostic as added by `resp.Diagnostics.AddError` /
`AddAttributeError` (the attribute path argument is not modelled). -/
structure Diagnostic where
  summary : String
  detail : String
deriving DecidableEq

/-- A record of one API Client method invocation performed by an adapter.
The `Option Client` argument is the receiver the call goes through: `none`
models an invocation through a nil `*Client` pointer. -/
inductive ApiCall where
  | createClient (viaClient : Option Client) (name identifier kind description : String)
  | readClient (viaClient : Option Client) (id : Int)
  | deleteClient (viaClient : Option Client) (id : Int)
  | createToken (viaClient : Option Client) (clientId : Int) (scopes : List String)
      (expiresAt : String)
  | readToken (viaClient : Option Client) (id : Int)
  | deleteToken (viaClient : Option Client) (id : Int)
deriving DecidableEq

/-- The value handed to an adapter `Configure` via `req.ProviderData`
(when non-nil): either a `*Client` or a value of some other type, carried
with its rendered type name (the `%T` verb). -/
inductive ProviderData where
  | clientData (c : Client)
  | otherData (typeName : String)

/-- The `OAuthClientResource` adapter struct: its (possibly nil) `*Client`. -/
structure OAuthClientResource where
  client : Option Client

/-- Model of `NewOAuthClientResource`: the zero struct, nil client. -/
def NewOAuthClientResource : OAuthClientResource := ⟨none⟩

/-- The `OAuthTokenResource` adapter struct: its (possibly nil) `*Client`. -/
structure OAuthTokenResource where
  client : Option Client

/-- Model of `NewOAuthTokenResource`: the zero struct, nil client. -/
def NewOAuthTokenResource : OAuthTokenResource := ⟨none⟩

/-- The `OAuthClientResourceModel` plan/state record, each `types.String`
field modelled by its `ValueString` image. -/
structure OAuthClientResourceModel where
  id : String
  name : String
  identifier : String
  kind : String
  description : String
deriving DecidableEq

/-- The `OAuthTokenResourceModel` plan/state record. -/
structure OAuthTokenResourceModel where
  id : String
  clientId : String
  scopes : List String
  fullToken : String
  expiresAt : String
deriving DecidableEq

/-- Model of `OAuthClientResource.Configure`: nil provider data returns
silently; a non-`*Client` value adds the type-mismatch diagnostic; a
`*Client` is stored on the adapter. -/
def oauthClientConfigure (r : OAuthClientResource) (providerData : Option ProviderData) :
    OAuthClientResource × List Diagnostic :=
  match providerData with
  | none => (r, [])
  | some (.clientData c) => ({ client := some c }, [])
  | some (.otherData t) =>
    (r, [⟨"Unexpected Resource Configure Type",
          "Expected *Client, got: " ++ t ++
          ". Please report this issue to the provider developers."⟩])

/-- Model of `OAuthTokenResource.Configure`. -/
def oauthTokenConfigure (r : OAuthTokenResource) (providerData : Option ProviderData) :
    OAuthTokenResource × List Diagnostic :=
  match providerData with
  | none => (r, [])
  | some (.clientData c) => ({ client := some c }, [])
  | some (.otherData t) =>
    (r, [⟨"Unexpected Resource Configure Type",
          "Expected *Client, got: " ++ t ++
          ". Please report this issue to the provider developers."⟩])

/-- Result of an adapter create: accumulated diagnostics, the state written
by `resp.State.Set` (`none` when nothing was written), and the API Client
invocations performed. -/
structure CreateResult (μ : Type) where
  diagnostics : List Diagnostic
  state : Option μ
  calls : List ApiCall
deriving DecidableEq

/-- What an adapter read did to the tracked state: left it untouched after a
diagnostic, removed the resource (`resp.State.RemoveResource`), or wrote an
updated record (`resp.State.Set`). -/
inductive ReadOutcome (μ : Type) where
  | failed
  | removed
  | updated (m : μ)
deriving DecidableEq

/-- Result of an adapter read. -/
structure ReadResult (μ : Type) where
  diagnostics : List Diagnostic
  outcome : ReadOutcome μ
  calls : List ApiCall
deriving DecidableEq

/-- Result of an adapter delete. -/
structure DeleteResult where
  diagnostics : List Diagnostic
  calls : List ApiCall
deriving DecidableEq

/-- Model of `OAuthClientResource.Create` (after a successful `Plan.Get`):
calls `CreateOAuthClient` with the four plan fields; on error adds the
diagnostic and writes no state; on success overwrites `id` (formatted
decimal) and `description` with the server echo and writes the record. -/
def oauthClientCreate (r : OAuthClientResource) (plan : OAuthClientResourceModel)
    (resp : HttpResponse) : CreateResult OAuthClientResourceModel :=
  match createOAuthClientResult resp with
  | .error e =>
    { diagnostics := [⟨"Error Creating OAuth Client",
        "Could not create OAuth client: " ++ e⟩]
    , state := none
    , calls := [ApiCall.createClient r.client plan.name plan.identifier
        plan.kind plan.description] }
  | .ok c =>
    { diagnostics := []
    , state := some { plan with id := formatInt c.id, description := c.description }
    , calls := [ApiCall.createClient r.client plan.name plan.identifier
        plan.kind plan.description] }

/-- Model of `OAuthClientResource.Read` (after a successful `State.Get`):
parses the stored id (parse failure is a diagnostic and aborts before any
call), then calls `ReadOAuthClient`; an error is a diagnostic, not-found
removes the resource, and a found client refreshes the four mutable
fields. -/
def oauthClientRead (r : OAuthClientResource) (state : OAuthClientResourceModel)
    (resp : HttpResponse) : ReadResult OAuthClientResourceModel :=
  match parseInt64 state.id with
  | .error e =>
    { diagnostics := [⟨"Error Parsing OAuth Client ID",
        "Could not parse OAuth client ID: " ++ parseIntErrorMessage state.id e⟩]
    , outcome := .failed
    , calls := [] }
  | .ok id =>
    match readOAuthClientResult resp with
    | .error e =>
      { diagnostics := [⟨"Error Reading OAuth Client",
          "Could not read OAuth client: " ++ e⟩]
      , outcome := .failed
      , calls := [ApiCall.readClient r.client id] }
    | .ok none =>
      { diagnostics := [], outcome := .removed
      , calls := [ApiCall.readClient r.client id] }
    | .ok (some c) =>
      let refreshed := { state with
        name := c.name
        identifier := c.identifier
        kind := c.kind
        description := c.description }
      { diagnostics := []
      , outcome := .updated refreshed
      , calls := [ApiCall.readClient r.client id] }

/-- Model of `OAuthClientResource.Update`: unconditionally one fixed
diagnostic, no API Client call, for every plan and prior state. -/
def oauthClientUpdate (_r : OAuthClientResource) (_plan _state : OAuthClientResourceModel) :
    List Diagnostic × List ApiCall :=
  ([⟨"Update Not Supported",
     "The Zendesk API does not support updating OAuth clients. To change the configuration, you must create a new client."⟩],
   [])

/-- Model of `OAuthClientResource.Delete` (after a successful `State.Get`):
parses the stored id (failure aborts before any call), then calls
`DeleteOAuthClient`, surfacing an error as a diagnostic. -/
def oauthClientDelete (r : OAuthClientResource) (state : OAuthClientResourceModel)
    (resp : HttpResponse) : DeleteResult :=
  match parseInt64 state.id with
  | .error e =>
    { diagnostics := [⟨"Error Parsing OAuth Client ID",
        "Could not parse OAuth client ID: " ++ parseIntErrorMessage state.id e⟩]
    , calls := [] }
  | .ok id =>
    match deleteOAuthClientResult resp with
    | .error e =>
      { diagnostics := [⟨"Error Deleting OAuth Client",
          "Could not delete OAuth client: " ++ e⟩]
      , calls := [ApiCall.deleteClient r.client id] }
    | .ok _ =>
      { diagnostics := [], calls := [ApiCall.deleteClient r.client id] }

/-- Model of `OAuthTokenResource.Create` (after a successful `Plan.Get`):
parses the plan `client_id` (failure aborts before any call), then calls
`CreateOAuthToken` with the parsed id, the plan scopes and the plan
`expires_at`; on error adds the diagnostic and writes no state; on success
overwrites `id`, `full_token` and `expires_at` with the server echo and
writes the record. -/
def oauthTokenCreate (r : OAuthTokenResource) (plan : OAuthTokenResourceModel)
    (resp : HttpResponse) : CreateResult OAuthTokenResourceModel :=
  match parseInt64 plan.clientId with
  | .error e =>
    { diagnostics := [⟨"Error Parsing Client ID",
        "Could not parse client ID: " ++ parseIntErrorMessage plan.clientId e⟩]
    , state := none
    , calls := [] }
  | .ok cid =>
    match createOAuthTokenResult resp with
    | .error e =>
      { diagnostics := [⟨"Error Creating OAuth Token",
          "Could not create OAuth token: " ++ e⟩]
      , state := none
      , calls := [ApiCall.createToken r.client cid plan.scopes plan.expiresAt] }
    | .ok t =>
      let written := { plan with
        id := formatInt t.id
        fullToken := t.fullToken
        expiresAt := t.expiresAt }
      { diagnostics := []
      , state := some written
      , calls := [ApiCall.createToken r.client cid plan.scopes plan.expiresAt] }

/-- Model of `OAuthTokenResource.Read` (after a successful `State.Get`):
parses the stored id (failure aborts before any call), then calls
`ReadOAuthToken`; an error is a diagnostic, not-found removes the resource,
and a found token refreshes `client_id`, `scopes` and `expires_at` only
(the stored `id` and `full_token` are left untouched). -/
def oauthTokenRead (r : OAuthTokenResource) (state : OAuthTokenResourceModel)
    (resp : HttpResponse) : ReadResult OAuthTokenResourceModel :=
  match parseInt64 state.id with
  | .error e =>
    { diagnostics := [⟨"Error Parsing OAuth Token ID",
        "Could not parse OAuth token ID: " ++ parseIntErrorMessage state.id e⟩]
    , outcome := .failed
    , calls := [] }
  | .ok id =>
    match readOAuthTokenResult resp with
    | .error e =>
      { diagnostics := [⟨"Error Reading OAuth Token",
          "Could not read OAuth token: " ++ e⟩]
      , outcome := .failed
      , calls := [ApiCall.readToken r.client id] }
    | .ok none =>
      { diagnostics := [], outcome := .removed
      , calls := [ApiCall.readToken r.client id] }
    | .ok (some t) =>
      let refreshed := { state with
        clientId := formatInt t.clientId
        scopes := t.scopes
        expiresAt := t.expiresAt }
      { diagnostics := []
      , outcome := .updated refreshed
      , calls := [ApiCall.readToken r.client id] }

/-- Model of `OAuthTokenResource.Update`: unconditionally one fixed
diagnostic, no API Client call. -/
def oauthTokenUpdate (_r : OAuthTokenResource) (_plan _state : OAuthTokenResourceModel) :
    List Diagnostic × List ApiCall :=
  ([⟨"Update Not Supported",
     "The Zendesk API does not support updating OAuth tokens. To change the configuration, you must create a new token."⟩],
   [])

/-- Model of `OAuthTokenResource.Delete`. -/
def oauthTokenDelete (r : OAuthTokenResource) (state : OAuthTokenResourceModel)
    (resp : HttpResponse) : DeleteResult :=
  match parseInt64 state.id with
  | .error e =>
    { diagnostics := [⟨"Error Parsing OAuth Token ID",
        "Could not parse OAuth token ID: " ++ parseIntErrorMessage state.id e⟩]
    , calls := [] }
  | .ok id =>
    match deleteOAuthTokenResult resp with
    | .error e =>
      { diagnostics := [⟨"Error Deleting OAuth Token",
          "Could not delete OAuth token: " ++ e⟩]
      , calls := [ApiCall.deleteToken r.client id] }
    | .ok _ =>
      { diagnostics := [], calls := [ApiCall.deleteToken r.client id] }

/-- A `types.String` value of the provider configuration model, keeping the
null / unknown / known-value distinction that `Configure` inspects. -/
inductive ConfigValue where
  | null
  | unknown
  | value (s : String)
deriving DecidableEq

/-- Model of `types.String.IsUnknown`. -/
def ConfigValue.isUnknown : ConfigValue → Bool
  | .unknown => true
  | _ => false

/-- Model of `types.String.IsNull`. -/
def ConfigValue.isNull : ConfigValue → Bool
  | .null => true
  | _ => false

/-- Model of `types.String.ValueString`: the held value, or `""` for null
and unknown values. -/
def ConfigValue.valueString : ConfigValue → String
  | .value s => s
  | _ => ""

/-- The `ZendeskProviderModel` configuration record. -/
structure ZendeskProviderModel where
  subdomain : ConfigValue
  email : ConfigValue
  apiToken : ConfigValue

/-- The three environment variables read by the provider `Configure`
(`os.Getenv` yields `""` when a variable is unset). -/
structure ProviderEnv where
  subdomain : String
  email : String
  apiToken : String

/-- Result of the provider `Configure`: diagnostics plus the values assigned
to `resp.ResourceData` and `resp.DataSourceData`. -/
structure ProviderConfigureResult where
  diagnostics : List Diagnostic
  resourceData : Option Client
  dataSourceData : Option Client
deriving DecidableEq

/-- Model of `ZendeskProvider.Configure` (after a successful `Config.Get`):
unknown-value diagnostics abort first; then each credential is the
environment value overridden by a non-null configuration value; then
empty-after-merge diagnostics abort. In the source the final client
construction is commented out (a `TODO` comment), so `resp.ResourceData`
and `resp.DataSourceData` are never assigned on any path. -/
def zendeskProviderConfigure (config : ZendeskProviderModel) (env : ProviderEnv) :
    ProviderConfigureResult :=
  let unknownDiags : List Diagnostic :=
    (if config.subdomain.isUnknown then
      [⟨"Unknown Zendesk subdomain",
        "The provider cannot create the Zendesk API client as the subdomain is unknown."⟩]
     else []) ++
    (if config.email.isUnknown then
      [⟨"Unknown Zendesk email",
        "The provider cannot create the Zendesk API client as the email is unknown."⟩]
     else []) ++
    (if config.apiToken.isUnknown then
      [⟨"Unknown Zendesk API token",
        "The provider cannot create the Zendesk API client as the API token is unknown."⟩]
     else [])
  if unknownDiags ≠ [] then ⟨unknownDiags, none, none⟩
  else
    let subdomain := if config.subdomain.isNull then env.subdomain
      else config.subdomain.valueString
    let email := if config.email.isNull then env.email else config.email.valueString
    let apiToken := if config.apiToken.isNull then env.apiToken
      else config.apiToken.valueString
    let missingDiags : List Diagnostic :=
      (if subdomain = "" then
        [⟨"Missing Zendesk subdomain",
          "The provider cannot create the Zendesk API client as the subdomain is missing."⟩]
       else []) ++
      (if email = "" then
        [⟨"Missing Zendesk email",
          "The provider cannot create the Zendesk API client as the email is missing."⟩]
       else []) ++
      (if apiToken = "" then
        [⟨"Missing Zendesk API token",
          "The provider cannot create the Zendesk API client as the API token is missing."⟩]
       else [])
    if missingDiags ≠ [] then ⟨missingDiags, none, none⟩
    else ⟨[], none, none⟩

/-- The field names of the `client` envelope object of a request body,
in serialization order. -/
def requestClientFieldNames (r : HttpRequest) : List String :=
  match r.body with
  | some (Json.obj fields) =>
    match jsonLookup fields "client" with
    | some (Json.obj fs) => fs.map Prod.fst
    | _ => []
  | _ => []

/- Helper lemmas: each adapter operation performs the same API Client
invocation on every branch that is reached after its local parsing
succeeds, independently of the HTTP response. -/

theorem oauthClientCreate_calls_eq (r : OAuthClientResource)
    (plan : OAuthClientResourceModel) (resp : HttpResponse) :
    (oauthClientCreate r plan resp).calls =
      [ApiCall.createClient r.client plan.name plan.identifier plan.kind
        plan.description] := by
  cases h : createOAuthClientResult resp <;> simp [oauthClientCreate, h]

theorem oauthClientRead_calls_eq (r : OAuthClientResource)
    (st : OAuthClientResourceModel) (resp : HttpResponse) (i : Int)
    (h : parseInt64 st.id = .ok i) :
    (oauthClientRead r st resp).calls = [ApiCall.readClient r.client i] := by
  cases hr : readOAuthClientResult resp with
  | error e => simp [oauthClientRead, h, hr]
  | ok v => cases v <;> simp [oauthClientRead, h, hr]

theorem oauthClientDelete_calls_eq (r : OAuthClientResource)
    (st : OAuthClientResourceModel) (resp : HttpResponse) (i : Int)
    (h : parseInt64 st.id = .ok i) :
    (oauthClientDelete r st resp).calls = [ApiCall.deleteClient r.client i] := by
  cases hr : deleteOAuthClientResult resp <;> simp [oauthClientDelete, h, hr]

theorem oauthTokenCreate_calls_eq (r : OAuthTokenResource)
    (plan : OAuthTokenResourceModel) (resp : HttpResponse) (cid : Int)
    (h : parseInt64 plan.clientId = .ok cid) :
    (oauthTokenCreate r plan resp).calls =
      [ApiCall.createToken r.client cid plan.scopes plan.expiresAt] := by
  cases hr : createOAuthTokenResult resp <;> simp [oauthTokenCreate, h, hr]

theorem oauthTokenRead_calls_eq (r : OAuthTokenResource)
    (st : OAuthTokenResourceModel) (resp : HttpResponse) (i : Int)
    (h : parseInt64 st.id = .ok i) :
    (oauthTokenRead r st resp).calls = [ApiCall.readToken r.client i] := by
  cases hr : readOAuthTokenResult resp with
  | error e => simp [oauthTokenRead, h, hr]
  | ok v => cases v <;> simp [oauthTokenRead, h, hr]

theorem oauthTokenDelete_calls_eq (r : OAuthTokenResource)
    (st : OAuthTokenResourceModel) (resp : HttpResponse) (i : Int)
    (h : parseInt64 st.id = .ok i) :
    (oauthTokenDelete r st resp).calls = [ApiCall.deleteToken r.client i] := by
  cases hr : deleteOAuthTokenResult resp <;> simp [oauthTokenDelete, h, hr]

/-- Claim C1: the spec states that when provider configuration succeeds
(all three credentials non-empty after merging configuration over
environment), the provider constructs the shared API Client and hands it to
each resource adapter. The code never does: on every path — including the
fully successful one shown here at a concrete input — `Configure` leaves
both `ResourceData` and `DataSourceData` unassigned, because the client
construction is commented out in the source. -/
theorem provider_configure_success_hands_no_client :
    (∀ config env, (zendeskProviderConfigure config env).resourceData = none ∧
      (zendeskProviderConfigure config env).dataSourceData = none) ∧
    zendeskProviderConfigure
        ⟨ConfigValue.value "acme", ConfigValue.value "admin@example.com",
          ConfigValue.value "tok"⟩ ⟨"", "", ""⟩ =
      ⟨[], none, none⟩ := by
  constructor
  · intro config env
    constructor <;>
      simp only [zendeskProviderConfigure,
        apply_ite ProviderConfigureResult.resourceData,
        apply_ite ProviderConfigureResult.dataSourceData, ite_self]
  · rfl

/-- Claim C2: for both resource kinds, a read that receives HTTP 404 yields
the distinct not-found outcome (`ok none`, not an error), and the adapter
read then removes the resource from tracked state with no diagnostic; every
other non-200 status on read yields an error. -/
theorem read_404_is_not_found_and_removes_state
    (rc : OAuthClientResource) (rt : OAuthTokenResource)
    (stc : OAuthClientResourceModel) (stt : OAuthTokenResourceModel)
    (i j : Int) (resp : HttpResponse)
    (hc : parseInt64 stc.id = .ok i) (ht : parseInt64 stt.id = .ok j) :
    (resp.status = 404 →
      readOAuthClientResult resp = .ok none ∧
      readOAuthTokenResult resp = .ok none ∧
      oauthClientRead rc stc resp =
        ⟨[], ReadOutcome.removed, [ApiCall.readClient rc.client i]⟩ ∧
      oauthTokenRead rt stt resp =
        ⟨[], ReadOutcome.removed, [ApiCall.readToken rt.client j]⟩) ∧
    (resp.status ≠ 404 → resp.status ≠ 200 →
      readOAuthClientResult resp =
        .error ("failed to read OAuth client: " ++ resp.body) ∧
      readOAuthTokenResult resp =
        .error ("failed to read OAuth token: " ++ resp.body)) := by
  constructor
  · intro h404
    have h1 : readOAuthClientResult resp = .ok none := by
      simp [readOAuthClientResult, h404]
    have h2 : readOAuthTokenResult resp = .ok none := by
      simp [readOAuthTokenResult, h404]
    exact ⟨h1, h2, by simp [oauthClientRead, hc, h1], by simp [oauthTokenRead, ht, h2]⟩
  · intro h404 h200
    constructor <;>
      simp [readOAuthClientResult, readOAuthTokenResult, h404, h200]

/-- Witness for C2 at concrete inputs: a 404 read of a client with stored
id `"5"` removes the resource, and a 500 read of a token is an error. -/
theorem read_404_is_not_found_and_removes_state_witness :
    parseInt64 "5" = .ok 5 ∧
    oauthClientRead ⟨none⟩ ⟨"5", "n", "i", "public", ""⟩ ⟨404, "", none⟩ =
      ⟨[], ReadOutcome.removed, [ApiCall.readClient none 5]⟩ ∧
    readOAuthTokenResult ⟨500, "server error", none⟩ =
      .error ("failed to read OAuth token: " ++ "server error") := by
  have h5 : parseInt64 "5" = Except.ok 5 := rfl
  refine ⟨h5, ?_, ?_⟩
  · exact ((read_404_is_not_found_and_removes_state ⟨none⟩ ⟨none⟩
      ⟨"5", "n", "i", "public", ""⟩ ⟨"5", "7", [], "", ""⟩ 5 5
      ⟨404, "", none⟩ h5 h5).1 rfl).2.2.1
  · exact ((read_404_is_not_found_and_removes_state ⟨none⟩ ⟨none⟩
      ⟨"5", "n", "i", "public", ""⟩ ⟨"5", "7", [], "", ""⟩ 5 5
      ⟨500, "server error", none⟩ h5 h5).2 (by decide) (by decide)).2

/-- Claim C3: for each of the six API Client operations, any HTTP status
other than the expected success code (201 create, 200 read, 204 delete;
and other than 404 for reads) yields an error whose message carries the raw
response body verbatim as a suffix. -/
theorem unexpected_status_error_carries_body (resp : HttpResponse) :
    (resp.status ≠ 201 →
      createOAuthClientResult resp =
        .error ("failed to create OAuth client: " ++ resp.body) ∧
      createOAuthTokenResult resp =
        .error ("failed to create OAuth token: " ++ resp.body)) ∧
    (resp.status ≠ 404 → resp.status ≠ 200 →
      readOAuthClientResult resp =
        .error ("failed to read OAuth client: " ++ resp.body) ∧
      readOAuthTokenResult resp =
        .error ("failed to read OAuth token: " ++ resp.body)) ∧
    (resp.status ≠ 204 →
      deleteOAuthClientResult resp =
        .error ("failed to delete OAuth client: " ++ resp.body) ∧
      deleteOAuthTokenResult resp =
        .error ("failed to delete OAuth token: " ++ resp.body)) := by
  refine ⟨fun h => ⟨?_, ?_⟩, fun h4 h2 => ⟨?_, ?_⟩, fun h => ⟨?_, ?_⟩⟩ <;>
    simp [createOAuthClientResult, createOAuthTokenResult,
      readOAuthClientResult, readOAuthTokenResult,
      deleteOAuthClientResult, deleteOAuthTokenResult, *]

/-- Witness for C3 at a concrete response: status 500 with body
`"rate limited"` produces the six error messages each ending in the body. -/
theorem unexpected_status_error_carries_body_witness :
    (500 ≠ 201 ∧ 500 ≠ 404 ∧ 500 ≠ 200 ∧ 500 ≠ 204) ∧
    createOAuthClientResult ⟨500, "rate limited", none⟩ =
      .error ("failed to create OAuth client: " ++ "rate limited") ∧
    readOAuthTokenResult ⟨500, "rate limited", none⟩ =
      .error ("failed to read OAuth token: " ++ "rate limited") ∧
    deleteOAuthClientResult ⟨500, "rate limited", none⟩ =
      .error ("failed to delete OAuth client: " ++ "rate limited") := by
  have h := unexpected_status_error_carries_body ⟨500, "rate limited", none⟩
  exact ⟨by decide,
    (h.1 (by decide)).1,
    (h.2.1 (by decide) (by decide)).2,
    (h.2.2 (by decide)).1⟩

/-- Claim C4: for every update request on either resource kind, whatever
the plan and prior state, the adapter update adds exactly the fixed
unsupported-operation diagnostic and performs no API Client call. -/
theorem update_always_unsupported_and_no_call
    (rc : OAuthClientResource) (rt : OAuthTokenResource)
    (planc stc : OAuthClientResourceModel)
    (plant stt : OAuthTokenResourceModel) :
    oauthClientUpdate rc planc stc =
      ([⟨"Update Not Supported",
         "The Zendesk API does not support updating OAuth clients. To change the configuration, you must create a new client."⟩],
       []) ∧
    oauthTokenUpdate rt plant stt =
      ([⟨"Update Not Supported",
         "The Zendesk API does not support updating OAuth tokens. To change the configuration, you must create a new token."⟩],
       []) := ⟨rfl, rfl⟩

/-- Claim C5: for each adapter create, an API Client success writes into
state the server-assigned id in decimal string form plus the echoed
server-populated fields (description for clients; full_token and expires_at
for tokens) with no diagnostic, while an API Client error adds the
diagnostic and writes no state at all. -/
theorem create_success_writes_echo_error_writes_nothing
    (rc : OAuthClientResource) (rt : OAuthTokenResource)
    (plan : OAuthClientResourceModel) (plant : OAuthTokenResourceModel)
    (resp : HttpResponse) (cid : Int)
    (hcid : parseInt64 plant.clientId = .ok cid) :
    (∀ c, createOAuthClientResult resp = .ok c →
      (oauthClientCreate rc plan resp).state =
        some { plan with id := formatInt c.id, description := c.description } ∧
      (oauthClientCreate rc plan resp).diagnostics = []) ∧
    (∀ e, createOAuthClientResult resp = .error e →
      (oauthClientCreate rc plan resp).state = none ∧
      (oauthClientCreate rc plan resp).diagnostics =
        [⟨"Error Creating OAuth Client", "Could not create OAuth client: " ++ e⟩]) ∧
    (∀ t, createOAuthTokenResult resp = .ok t →
      (oauthTokenCreate rt plant resp).state =
        some { plant with id := formatInt t.id, fullToken := t.fullToken, expiresAt := t.expiresAt } ∧
      (oauthTokenCreate rt plant resp).diagnostics = []) ∧
    (∀ e, createOAuthTokenResult resp = .error e →
      (oauthTokenCreate rt plant resp).state = none ∧
      (oauthTokenCreate rt plant resp).diagnostics =
        [⟨"Error Creating OAuth Token", "Could not create OAuth token: " ++ e⟩]) := by
  refine ⟨fun c hc => ?_, fun e he => ?_, fun t ht => ?_, fun e he => ?_⟩ <;>
    simp [oauthClientCreate, oauthTokenCreate, hcid, *]

/-- Witness for C5 at concrete inputs: a 201 creation response for each
resource kind writes the echoed record, and a 500 response writes none. -/
theorem create_success_writes_echo_error_writes_nothing_witness :
    parseInt64 "7" = .ok 7 ∧
    createOAuthClientResult
        ⟨201, "", some (Json.obj [("client", Json.obj
          [("id", Json.num 42), ("name", Json.str "Basic Client"),
           ("identifier", Json.str "basic_client"), ("kind", Json.str "public"),
           ("description", Json.str "echo")])])⟩ =
      .ok ⟨42, "Basic Client", "basic_client", "public", "echo"⟩ ∧
    (oauthClientCreate ⟨none⟩ ⟨"", "Basic Client", "basic_client", "public", "d"⟩
        ⟨201, "", some (Json.obj [("client", Json.obj
          [("id", Json.num 42), ("name", Json.str "Basic Client"),
           ("identifier", Json.str "basic_client"), ("kind", Json.str "public"),
           ("description", Json.str "echo")])])⟩).state =
      some ⟨"42", "Basic Client", "basic_client", "public", "echo"⟩ ∧
    (oauthTokenCreate ⟨none⟩ ⟨"", "7", ["read"], "", ""⟩ ⟨500, "boom", none⟩).state =
      none := by
  have h7 : parseInt64 "7" = Except.ok 7 := rfl
  have hok : createOAuthClientResult
      ⟨201, "", some (Json.obj [("client", Json.obj
        [("id", Json.num 42), ("name", Json.str "Basic Client"),
         ("identifier", Json.str "basic_client"), ("kind", Json.str "public"),
         ("description", Json.str "echo")])])⟩ =
      Except.ok ⟨42, "Basic Client", "basic_client", "public", "echo"⟩ := rfl
  have herr : createOAuthTokenResult ⟨500, "boom", none⟩ =
      Except.error ("failed to create OAuth token: " ++ "boom") := rfl
  refine ⟨h7, hok, ?_, ?_⟩
  · exact ((create_success_writes_echo_error_writes_nothing ⟨none⟩ ⟨none⟩
      ⟨"", "Basic Client", "basic_client", "public", "d"⟩ ⟨"", "7", ["read"], "", ""⟩
      _ 7 h7).1 _ hok).1
  · exact ((create_success_writes_echo_error_writes_nothing ⟨none⟩ ⟨none⟩
      ⟨"", "Basic Client", "basic_client", "public", "d"⟩ ⟨"", "7", ["read"], "", ""⟩
      ⟨500, "boom", none⟩ 7 h7).2.2.2 _ herr).1

/-- Claim C6: whenever a stored id string (read and delete on both
resources) or the plan client_id (token create) fails to parse as an
integer, the operation adds a diagnostic and performs no API Client call
(and token create writes no state). -/
theorem id_parse_failure_aborts_before_any_call
    (s : String) (e : ParseError) (h : parseInt64 s = .error e)
    (rc : OAuthClientResource) (rt : OAuthTokenResource)
    (stc : OAuthClientResourceModel) (stt plant : OAuthTokenResourceModel)
    (resp : HttpResponse)
    (h1 : stc.id = s) (h2 : stt.id = s) (h3 : plant.clientId = s) :
    ((oauthClientRead rc stc resp).calls = [] ∧
      (oauthClientRead rc stc resp).diagnostics ≠ []) ∧
    ((oauthClientDelete rc stc resp).calls = [] ∧
      (oauthClientDelete rc stc resp).diagnostics ≠ []) ∧
    ((oauthTokenRead rt stt resp).calls = [] ∧
      (oauthTokenRead rt stt resp).diagnostics ≠ []) ∧
    ((oauthTokenDelete rt stt resp).calls = [] ∧
      (oauthTokenDelete rt stt resp).diagnostics ≠ []) ∧
    ((oauthTokenCreate rt plant resp).calls = [] ∧
      (oauthTokenCreate rt plant resp).diagnostics ≠ [] ∧
      (oauthTokenCreate rt plant resp).state = none) := by
  refine ⟨⟨?_, ?_⟩, ⟨?_, ?_⟩, ⟨?_, ?_⟩, ⟨?_, ?_⟩, ⟨?_, ?_, ?_⟩⟩ <;>
    simp [oauthClientRead, oauthClientDelete, oauthTokenRead, oauthTokenDelete,
      oauthTokenCreate, h1, h2, h3, h]

/-- Witness for C6 at the concrete unparsable id `"abc"`. -/
theorem id_parse_failure_aborts_before_any_call_witness :
    parseInt64 "abc" = .error ParseError.invalidNum ∧
    (oauthClientRead ⟨none⟩ ⟨"abc", "n", "i", "public", ""⟩ ⟨200, "", none⟩).calls = [] ∧
    (oauthTokenCreate ⟨none⟩ ⟨"", "abc", ["read"], "", ""⟩ ⟨201, "", none⟩).state = none := by
  have habc : parseInt64 "abc" = Except.error ParseError.invalidNum := rfl
  have h := id_parse_failure_aborts_before_any_call "abc" ParseError.invalidNum habc
    ⟨none⟩ ⟨none⟩ ⟨"abc", "n", "i", "public", ""⟩ ⟨"abc", "7", [], "", ""⟩
    ⟨"", "abc", ["read"], "", ""⟩ ⟨200, "", none⟩ rfl rfl rfl
  have h' := id_parse_failure_aborts_before_any_call "abc" ParseError.invalidNum habc
    ⟨none⟩ ⟨none⟩ ⟨"abc", "n", "i", "public", ""⟩ ⟨"abc", "7", [], "", ""⟩
    ⟨"", "abc", ["read"], "", ""⟩ ⟨201, "", none⟩ rfl rfl rfl
  exact ⟨habc, h.1.1, h'.2.2.2.2.2.2⟩

/-- Claim C7: a successful token adapter read (200 with a decodable body)
writes a state record in which only client_id, scopes and expires_at are
refreshed from the server; the stored id and the full_token captured at
creation are left unchanged. -/
theorem token_read_preserves_fullToken_and_id
    (rt : OAuthTokenResource) (st : OAuthTokenResourceModel)
    (resp : HttpResponse) (i : Int) (t : OAuthToken)
    (hid : parseInt64 st.id = .ok i)
    (hr : readOAuthTokenResult resp = .ok (some t)) :
    oauthTokenRead rt st resp =
      ⟨[], ReadOutcome.updated { st with clientId := formatInt t.clientId, scopes := t.scopes, expiresAt := t.expiresAt },
       [ApiCall.readToken rt.client i]⟩ ∧
    ({ st with clientId := formatInt t.clientId, scopes := t.scopes, expiresAt := t.expiresAt } : OAuthTokenResourceModel).fullToken = st.fullToken ∧
    ({ st with clientId := formatInt t.clientId, scopes := t.scopes, expiresAt := t.expiresAt } : OAuthTokenResourceModel).id = st.id := by
  exact ⟨by simp [oauthTokenRead, hid, hr], rfl, rfl⟩

/-- Witness for C7 at a concrete 200 response: the secret captured at
creation survives the refresh. -/
theorem token_read_preserves_fullToken_and_id_witness :
    parseInt64 "9" = .ok 9 ∧
    readOAuthTokenResult
        ⟨200, "", some (Json.obj [("token", Json.obj
          [("id", Json.num 9), ("client_id", Json.num 7),
           ("scopes", Json.arr [Json.str "read", Json.str "write"])])])⟩ =
      .ok (some ⟨9, 7, 0, ["read", "write"], "", ""⟩) ∧
    oauthTokenRead ⟨none⟩ ⟨"9", "7", ["read"], "secret", "2024-12-31T23:59:59Z"⟩
        ⟨200, "", some (Json.obj [("token", Json.obj
          [("id", Json.num 9), ("client_id", Json.num 7),
           ("scopes", Json.arr [Json.str "read", Json.str "write"])])])⟩ =
      ⟨[], ReadOutcome.updated ⟨"9", "7", ["read", "write"], "secret", ""⟩,
       [ApiCall.readToken none 9]⟩ := by
  have h9 : parseInt64 "9" = Except.ok 9 := rfl
  have hr : readOAuthTokenResult
      ⟨200, "", some (Json.obj [("token", Json.obj
        [("id", Json.num 9), ("client_id", Json.num 7),
         ("scopes", Json.arr [Json.str "read", Json.str "write"])])])⟩ =
      Except.ok (some ⟨9, 7, 0, ["read", "write"], "", ""⟩) := rfl
  exact ⟨h9, hr, (token_read_preserves_fullToken_and_id ⟨none⟩
    ⟨"9", "7", ["read"], "secret", "2024-12-31T23:59:59Z"⟩ _ 9 _ h9 hr).1⟩

/-- Reduction of a bind whose first step already succeeded. -/
theorem except_bind_ok {α β ε : Type} (a : α) (f : α → Except ε β) :
    (Except.ok a >>= f) = f a := rfl

/-- Reduction of a bind whose first step failed. -/
theorem except_bind_error {α β ε : Type} (e : ε) (f : α → Except ε β) :
    ((Except.error e : Except ε α) >>= f) = Except.error e := rfl

/-- If the `client` envelope object of a response omits the `description`
key, a successful decode yields the empty string for that field (the Go
struct zero value). -/
theorem decodeOAuthClient_absent_description (fs : List (String × Json))
    (c : OAuthClient) (hno : jsonLookup fs "description" = none)
    (h : decodeOAuthClient (Json.obj fs) = .ok c) : c.description = "" := by
  cases h1 : decodeIntField (jsonLookup fs "id") with
  | error e => simp [decodeOAuthClient, h1, except_bind_error] at h
  | ok v1 =>
    cases h2 : decodeStringField (jsonLookup fs "name") with
    | error e => simp [decodeOAuthClient, h1, h2, except_bind_ok, except_bind_error] at h
    | ok v2 =>
      cases h3 : decodeStringField (jsonLookup fs "identifier") with
      | error e => simp [decodeOAuthClient, h1, h2, h3, except_bind_ok, except_bind_error] at h
      | ok v3 =>
        cases h4 : decodeStringField (jsonLookup fs "kind") with
        | error e => simp [decodeOAuthClient, h1, h2, h3, h4, except_bind_ok, except_bind_error] at h
        | ok v4 =>
          have hd : decodeStringField (none : Option Json) = Except.ok "" := rfl
          simp only [decodeOAuthClient, h1, h2, h3, h4, hno, hd, except_bind_ok,
            pure, Except.pure, Except.ok.injEq] at h
          rw [← h]

/-- If the `token` envelope object of a response omits the `expires_at`
key, a successful decode yields the empty string for that field. -/
theorem decodeOAuthToken_absent_expiresAt (fs : List (String × Json))
    (t : OAuthToken) (hno : jsonLookup fs "expires_at" = none)
    (h : decodeOAuthToken (Json.obj fs) = .ok t) : t.expiresAt = "" := by
  cases h1 : decodeIntField (jsonLookup fs "id") with
  | error e => simp [decodeOAuthToken, h1, except_bind_error] at h
  | ok v1 =>
    cases h2 : decodeIntField (jsonLookup fs "client_id") with
    | error e => simp [decodeOAuthToken, h1, h2, except_bind_ok, except_bind_error] at h
    | ok v2 =>
      cases h3 : decodeIntField (jsonLookup fs "user_id") with
      | error e => simp [decodeOAuthToken, h1, h2, h3, except_bind_ok, except_bind_error] at h
      | ok v3 =>
        cases h4 : decodeStringListField (jsonLookup fs "scopes") with
        | error e => simp [decodeOAuthToken, h1, h2, h3, h4, except_bind_ok, except_bind_error] at h
        | ok v4 =>
          cases h5 : decodeStringField (jsonLookup fs "full_token") with
          | error e => simp [decodeOAuthToken, h1, h2, h3, h4, h5, except_bind_ok, except_bind_error] at h
          | ok v5 =>
            have hd : decodeStringField (none : Option Json) = Except.ok "" := rfl
            simp only [decodeOAuthToken, h1, h2, h3, h4, h5, hno, hd, except_bind_ok,
              pure, Except.pure, Except.ok.injEq] at h
            rw [← h]

/-- Claim C8: on a successful create whose response body omits the optional
echoed field (`description` for clients, `expires_at` for tokens), the
adapter persists the empty string for that field, overwriting whatever the
caller supplied in the plan. -/
theorem create_omitted_optional_field_cleared_to_empty
    (rc : OAuthClientResource) (rt : OAuthTokenResource)
    (plan : OAuthClientResourceModel) (plant : OAuthTokenResourceModel)
    (resp respT : HttpResponse) (fs ft : List (String × Json))
    (c : OAuthClient) (t : OAuthToken) (cid : Int)
    (hj : resp.json = some (Json.obj [("client", Json.obj fs)]))
    (hno : jsonLookup fs "description" = none)
    (hok : createOAuthClientResult resp = .ok c)
    (hjt : respT.json = some (Json.obj [("token", Json.obj ft)]))
    (hnot : jsonLookup ft "expires_at" = none)
    (hokt : createOAuthTokenResult respT = .ok t)
    (hcid : parseInt64 plant.clientId = .ok cid) :
    c.description = "" ∧
    (oauthClientCreate rc plan resp).state =
      some { plan with id := formatInt c.id, description := "" } ∧
    t.expiresAt = "" ∧
    (oauthTokenCreate rt plant respT).state =
      some { plant with id := formatInt t.id, fullToken := t.fullToken, expiresAt := "" } := by
  have hdesc : c.description = "" := by
    by_cases hs : resp.status = 201
    · have hok' := hok
      simp [createOAuthClientResult, hs, hj] at hok'
      have hw : decodeOAuthClientWrapper (Json.obj [("client", Json.obj fs)]) =
          decodeOAuthClient (Json.obj fs) := rfl
      rw [hw] at hok'
      exact decodeOAuthClient_absent_description fs c hno hok'
    · simp [createOAuthClientResult, hs] at hok
  have hexp : t.expiresAt = "" := by
    by_cases hs : respT.status = 201
    · have hokt' := hokt
      simp [createOAuthTokenResult, hs, hjt] at hokt'
      have hw : decodeOAuthTokenWrapper (Json.obj [("token", Json.obj ft)]) =
          decodeOAuthToken (Json.obj ft) := rfl
      rw [hw] at hokt'
      exact decodeOAuthToken_absent_expiresAt ft t hnot hokt'
    · simp [createOAuthTokenResult, hs] at hokt
  refine ⟨hdesc, ?_, hexp, ?_⟩
  · simp [oauthClientCreate, hok, hdesc]
  · simp [oauthTokenCreate, hcid, hokt, hexp]

/-- Witness for C8 at concrete inputs: creation responses omitting the
optional field clear the caller-supplied `"custom"` / expiry values. -/
theorem create_omitted_optional_field_cleared_to_empty_witness :
    createOAuthClientResult
        ⟨201, "", some (Json.obj [("client", Json.obj
          [("id", Json.num 7), ("name", Json.str "n"),
           ("identifier", Json.str "i"), ("kind", Json.str "public")])])⟩ =
      .ok ⟨7, "n", "i", "public", ""⟩ ∧
    (oauthClientCreate ⟨none⟩ ⟨"", "n", "i", "public", "custom"⟩
        ⟨201, "", some (Json.obj [("client", Json.obj
          [("id", Json.num 7), ("name", Json.str "n"),
           ("identifier", Json.str "i"), ("kind", Json.str "public")])])⟩).state =
      some ⟨"7", "n", "i", "public", ""⟩ ∧
    (oauthTokenCreate ⟨none⟩ ⟨"", "7", ["read"], "", "2030-01-01T00:00:00Z"⟩
        ⟨201, "", some (Json.obj [("token", Json.obj
          [("id", Json.num 9), ("client_id", Json.num 7),
           ("scopes", Json.arr [Json.str "read"]),
           ("full_token", Json.str "secret")])])⟩).state =
      some ⟨"9", "7", ["read"], "secret", ""⟩ := by
  have hok : createOAuthClientResult
      ⟨201, "", some (Json.obj [("client", Json.obj
        [("id", Json.num 7), ("name", Json.str "n"),
         ("identifier", Json.str "i"), ("kind", Json.str "public")])])⟩ =
      Except.ok ⟨7, "n", "i", "public", ""⟩ := rfl
  have hokt : createOAuthTokenResult
      ⟨201, "", some (Json.obj [("token", Json.obj
        [("id", Json.num 9), ("client_id", Json.num 7),
         ("scopes", Json.arr [Json.str "read"]),
         ("full_token", Json.str "secret")])])⟩ =
      Except.ok ⟨9, 7, 0, ["read"], "secret", ""⟩ := rfl
  have h := create_omitted_optional_field_cleared_to_empty ⟨none⟩ ⟨none⟩
    ⟨"", "n", "i", "public", "custom"⟩ ⟨"", "7", ["read"], "", "2030-01-01T00:00:00Z"⟩
    ⟨201, "", some (Json.obj [("client", Json.obj
      [("id", Json.num 7), ("name", Json.str "n"),
       ("identifier", Json.str "i"), ("kind", Json.str "public")])])⟩
    ⟨201, "", some (Json.obj [("token", Json.obj
      [("id", Json.num 9), ("client_id", Json.num 7),
       ("scopes", Json.arr [Json.str "read"]),
       ("full_token", Json.str "secret")])])⟩
    [("id", Json.num 7), ("name", Json.str "n"),
     ("identifier", Json.str "i"), ("kind", Json.str "public")]
    [("id", Json.num 9), ("client_id", Json.num 7),
     ("scopes", Json.arr [Json.str "read"]),
     ("full_token", Json.str "secret")]
    ⟨7, "n", "i", "public", ""⟩ ⟨9, 7, 0, ["read"], "secret", ""⟩ 7
    rfl rfl hok rfl rfl hokt rfl
  exact ⟨hok, h.2.1, h.2.2.2⟩

/-- Counterexample to claim C9: at a concrete input, the serialized body of
the create-client POST wraps five fields under the `client` envelope — the
four caller-supplied ones plus an `id` field (the `ID` struct field has no
omitempty tag and is serialized as 0) — so the body is not exactly the four
caller-supplied fields. -/
theorem create_request_body_has_extra_id_field :
    requestClientFieldNames
        (createOAuthClientRequest (NewClient "acme" "admin@example.com" "tok")
          "Basic Client" "basic_client" "public" "desc") =
      ["id", "name", "identifier", "kind", "description"] ∧
    (["id", "name", "identifier", "kind", "description"] : List String) ≠
      ["name", "identifier", "kind", "description"] := ⟨rfl, by decide⟩

/-- Claim C9 as amended: the create-client request is a POST whose JSON body
wraps, under a single `client` envelope key, a zero-valued `id` field
followed by the caller-supplied name, identifier and kind, with the
caller-supplied description present exactly when it is non-empty, and no
other fields. -/
theorem create_request_body_exact_shape (cl : Client)
    (name identifier kind description : String) :
    (createOAuthClientRequest cl name identifier kind description).method = "POST" ∧
    (createOAuthClientRequest cl name identifier kind description).body =
      some (Json.obj [("client", Json.obj
        ([("id", Json.num 0), ("name", Json.str name),
          ("identifier", Json.str identifier), ("kind", Json.str kind)] ++
         (if description = "" then [] else [("description", Json.str description)])))]) :=
  ⟨rfl, rfl⟩

/-- Claim C10: an adapter configure invoked with absent (nil) provider data
returns silently — no diagnostic, client left unset (and a freshly
constructed adapter starts with no client) — and create, read and delete on
such an adapter then invoke the API Client method through the unset (nil)
client rather than producing a diagnostic about it. -/
theorem nil_provider_data_silent_then_calls_through_nil_client
    (rc : OAuthClientResource) (rt : OAuthTokenResource)
    (plan stc : OAuthClientResourceModel) (plant stt : OAuthTokenResourceModel)
    (resp : HttpResponse) (i j cid : Int)
    (hrc : rc.client = none) (hrt : rt.client = none)
    (hi : parseInt64 stc.id = .ok i) (hj : parseInt64 stt.id = .ok j)
    (hcid : parseInt64 plant.clientId = .ok cid) :
    NewOAuthClientResource.client = none ∧
    NewOAuthTokenResource.client = none ∧
    oauthClientConfigure rc none = (rc, []) ∧
    oauthTokenConfigure rt none = (rt, []) ∧
    (oauthClientCreate rc plan resp).calls =
      [ApiCall.createClient none plan.name plan.identifier plan.kind plan.description] ∧
    (oauthClientRead rc stc resp).calls = [ApiCall.readClient none i] ∧
    (oauthClientDelete rc stc resp).calls = [ApiCall.deleteClient none i] ∧
    (oauthTokenCreate rt plant resp).calls =
      [ApiCall.createToken none cid plant.scopes plant.expiresAt] ∧
    (oauthTokenRead rt stt resp).calls = [ApiCall.readToken none j] ∧
    (oauthTokenDelete rt stt resp).calls = [ApiCall.deleteToken none j] := by
  refine ⟨rfl, rfl, rfl, rfl, ?_, ?_, ?_, ?_, ?_, ?_⟩
  · rw [oauthClientCreate_calls_eq, hrc]
  · rw [oauthClientRead_calls_eq rc stc resp i hi, hrc]
  · rw [oauthClientDelete_calls_eq rc stc resp i hi, hrc]
  · rw [oauthTokenCreate_calls_eq rt plant resp cid hcid, hrt]
  · rw [oauthTokenRead_calls_eq rt stt resp j hj, hrt]
  · rw [oauthTokenDelete_calls_eq rt stt resp j hj, hrt]

/-- Witness for C10 at concrete inputs: the freshly constructed adapters,
configured with nil provider data, still issue their API calls through the
nil client. -/
theorem nil_provider_data_silent_then_calls_through_nil_client_witness :
    parseInt64 "5" = .ok 5 ∧
    oauthClientConfigure ⟨none⟩ none = (⟨none⟩, []) ∧
    (oauthClientRead ⟨none⟩ ⟨"5", "n", "i", "public", ""⟩ ⟨200, "", none⟩).calls =
      [ApiCall.readClient none 5] ∧
    (oauthTokenCreate ⟨none⟩ ⟨"", "5", ["read"], "", ""⟩ ⟨500, "boom", none⟩).calls =
      [ApiCall.createToken none 5 ["read"] ""] := by
  have h5 : parseInt64 "5" = Except.ok 5 := rfl
  have h := nil_provider_data_silent_then_calls_through_nil_client
    ⟨none⟩ ⟨none⟩ ⟨"", "n", "i", "public", ""⟩ ⟨"5", "n", "i", "public", ""⟩
    ⟨"", "5", ["read"], "", ""⟩ ⟨"5", "5", [], "", ""⟩ ⟨200, "", none⟩ 5 5 5
    rfl rfl h5 h5 h5
  have h' := nil_provider_data_silent_then_calls_through_nil_client
    ⟨none⟩ ⟨none⟩ ⟨"", "n", "i", "public", ""⟩ ⟨"5", "n", "i", "public", ""⟩
    ⟨"", "5", ["read"], "", ""⟩ ⟨"5", "5", [], "", ""⟩ ⟨500, "boom", none⟩ 5 5 5
    rfl rfl h5 h5 h5
  exact ⟨h5, h.2.2.1, h.2.2.2.2.2.1, h'.2.2.2.2.2.2.2.1⟩

end Zendesk
